import Mathlib

/-!
Verification of the SSE stream engine of `kratos-transport` (package
`transport/sse`): the stream registry, per-stream replay buffer and
subscriber fan-out, the server-side subscribe/publish handlers and the
client-side dispatch loop.  The engine itself is not shipped alongside its
test file, so every operation below is modelled from the specification's
description of the engine, faithful to its words, and checked against the
behaviours the test file `transport/sse/http_test.go` pins down.
-/

namespace sse

/-! ### Decimal identifiers

Auto-assigned event ids are "decimal string of a per-stream monotonically
increasing counter"; resumption comparison is "numeric comparison matching
the ID assignment scheme". -/

/-- Decimal digit list of a natural number, most significant first
(the digits of `strconv.Itoa`); structural recursion on a fuel bound so
that it evaluates by kernel reduction. -/
def decDigitsAux : Nat → Nat → List Char
  | 0, _ => []
  | fuel + 1, n =>
    if n < 10 then [Nat.digitChar n]
    else decDigitsAux fuel (n / 10) ++ [Nat.digitChar (n % 10)]

/-- Decimal digit list of a natural number, most significant first. -/
def decDigits (n : Nat) : List Char := decDigitsAux (n + 1) n

/-- Modelled from the spec: the missing id renderer — the decimal string of
a counter value ("decimal string of a per-stream monotonically increasing
counter"). -/
def decRepr (n : Nat) : String := ⟨decDigits n⟩

/-- Numeric value of one decimal digit character. -/
def charVal (c : Char) : Nat := c.toNat - 48

/-- Modelled from the spec: the missing id parser — numeric value of an id
string ("lexicographic/numeric comparison matching the ID assignment
scheme"). -/
def idNum (s : String) : Nat := s.data.foldl (fun a c => a * 10 + charVal c) 0

theorem charVal_digitChar : ∀ d < 10, charVal (Nat.digitChar d) = d := by decide

theorem decDigitsAux_eq (fuel₁ : Nat) : ∀ fuel₂ n, n < fuel₁ → n < fuel₂ →
    decDigitsAux fuel₁ n = decDigitsAux fuel₂ n := by
  induction fuel₁ with
  | zero => intro fuel₂ n h1; omega
  | succ f ih =>
    intro fuel₂ n h1 h2
    match fuel₂, h2 with
    | f2 + 1, _ =>
      rw [decDigitsAux, decDigitsAux]
      by_cases h : n < 10
      · simp [h]
      · rw [if_neg h, if_neg h,
          ih f2 (n / 10) (by omega) (by omega)]

theorem decDigits_ne_nil (n : Nat) : decDigits n ≠ [] := by
  rw [decDigits, decDigitsAux]
  split
  · simp
  · simp

theorem foldl_decDigitsAux (fuel : Nat) : ∀ n, n < fuel →
    ∀ a, List.foldl (fun a c => a * 10 + charVal c) a (decDigitsAux fuel n)
      = a * 10 ^ (decDigitsAux fuel n).length + n := by
  induction fuel with
  | zero => intro n h; omega
  | succ f ih =>
    intro n hn a
    rw [decDigitsAux]
    by_cases h : n < 10
    · simp [h, charVal_digitChar n h]
    · rw [if_neg h]
      have hlt : n / 10 < f := by
        have hdiv : n / 10 < n := Nat.div_lt_self (by omega) (by omega)
        omega
      rw [List.foldl_append, ih (n / 10) hlt a]
      simp only [List.foldl_cons, List.foldl_nil, List.length_append,
        List.length_singleton]
      rw [charVal_digitChar (n % 10) (Nat.mod_lt _ (by omega))]
      have hdm : 10 * (n / 10) + n % 10 = n := Nat.div_add_mod n 10
      ring_nf
      omega

/-- Parsing the decimal rendering of `n` gives back `n`. -/
theorem idNum_decRepr (n : Nat) : idNum (decRepr n) = n := by
  have := foldl_decDigitsAux (n + 1) n (by omega) 0
  simpa [idNum, decRepr, decDigits] using this

theorem decRepr_ne_empty (n : Nat) : decRepr n ≠ "" := by
  intro h
  exact decDigits_ne_nil n (congrArg String.data h)

/-! ### Data model -/

/-- Modelled from the spec: the missing `Event` type — immutable unit of
data on a stream: `id` (opaque byte sequence, here its string), `data`
(payload bytes), `receivedAt` (timestamp assigned at buffer-insertion
time, used for TTL eviction). -/
structure Event where
  id : String
  data : List Nat
  receivedAt : Nat
deriving Repr, DecidableEq

/-- Modelled from the spec: a producer-side event as handed to `Publish` —
the id may be empty, in which case the Stream assigns the next sequence
value. -/
structure PubEvent where
  id : String := ""
  data : List Nat
deriving Repr, DecidableEq

/-- Modelled from the spec: the missing `Subscriber` type — an opaque
handle unique per registration plus the outbound delivery queue. -/
structure Subscriber where
  handle : Nat
  queue : List Event
deriving Repr, DecidableEq

/-- Modelled from the spec: the missing `Stream` type — a named channel
owning a replay buffer (oldest first), the set of active subscribers, the
per-stream id counter (`eventIndex`) and the next fresh subscriber
handle. -/
structure Stream where
  name : String
  eventIndex : Nat
  buffer : List Event
  subscribers : List Subscriber
  nextHandle : Nat
deriving Repr, DecidableEq

/-- Modelled from the spec: a fresh, empty stream. -/
def newStream (name : String) : Stream :=
  { name := name, eventIndex := 0, buffer := [], subscribers := [], nextHandle := 0 }

/-! ### Replay buffer -/

/-- Modelled from the spec: TTL expiry — an entry is expired when its
wall-clock age since `receivedAt` exceeds the TTL; a TTL of `0` (unset)
means no eviction, matching the test where a server with the default TTL
replays its full buffer. -/
def expired (ttl now receivedAt : Nat) : Bool :=
  ttl != 0 && ttl < now - receivedAt

/-- Modelled from the spec: the missing replay-buffer `Append` — store the
event, then lazily prune entries whose age exceeds the TTL. -/
def logAppend (ttl now : Nat) (e : Event) (buf : List Event) : List Event :=
  (buf ++ [e]).filter (fun x => !expired ttl now x.receivedAt)

/-- Modelled from the spec: the missing replay-buffer `Snapshot(sinceID)` —
all retained (non-expired) events in order; when `sinceID` is non-empty,
only those with id numerically greater than `sinceID`. -/
def snapshot (ttl now : Nat) (sinceID : String) (buf : List Event) : List Event :=
  let retained := buf.filter (fun e => !expired ttl now e.receivedAt)
  if sinceID = "" then retained
  else retained.filter (fun e => idNum sinceID < idNum e.id)

/-! ### Stream operations -/

/-- Modelled from the spec: the missing `Stream.Publish` — assign the next
counter value as decimal-string id when the producer supplied none, stamp
`receivedAt`, append to the buffer (with lazy TTL pruning) and broadcast
to every currently registered subscriber's queue. -/
def Stream.publish (ttl now : Nat) (ev : PubEvent) (s : Stream) : Stream :=
  let idx := if ev.id = "" then s.eventIndex + 1 else s.eventIndex
  let eid := if ev.id = "" then decRepr (s.eventIndex + 1) else ev.id
  let e : Event := { id := eid, data := ev.data, receivedAt := now }
  { s with
    eventIndex := idx
    buffer := logAppend ttl now e s.buffer
    subscribers := s.subscribers.map (fun sub => { sub with queue := sub.queue ++ [e] }) }

/-- Modelled from the spec: the missing `Stream.Subscribe(lastSeenID)` —
atomically (one critical section, per the design notes) compute the replay
set from the buffer (empty when the server's auto-replay switch is off)
and register a new subscriber whose queue starts as that replay set;
returns the updated stream and the new subscriber. -/
def Stream.subscribe (ttl now : Nat) (autoReplay : Bool) (lastSeenID : String)
    (s : Stream) : Stream × Subscriber :=
  let replay := if autoReplay then snapshot ttl now lastSeenID s.buffer else []
  let sub : Subscriber := { handle := s.nextHandle, queue := replay }
  ({ s with subscribers := s.subscribers ++ [sub], nextHandle := s.nextHandle + 1 }, sub)

/-- Modelled from the spec: the missing `Stream.Unsubscribe(handle)` —
idempotent removal of the subscriber with the given handle; no error if
already removed. -/
def Stream.unsubscribe (h : Nat) (s : Stream) : Stream :=
  { s with subscribers := s.subscribers.filter (fun sub => sub.handle != h) }

/-- The delivery queue of the subscriber with handle `h`, if registered. -/
def Stream.subQueue (s : Stream) (h : Nat) : Option (List Event) :=
  (s.subscribers.find? (fun sub => sub.handle == h)).map Subscriber.queue

/-- Publish a whole list of producer events (no producer-supplied ids) in
order, all at time `now`. -/
def publishAll (ttl now : Nat) (datas : List (List Nat)) (s : Stream) : Stream :=
  datas.foldl (fun st d => st.publish ttl now { data := d }) s

/-! ### Stream manager -/

/-- Modelled from the spec: the missing `StreamManager` — registry mapping
stream name to stream. -/
structure StreamManager where
  streams : List (String × Stream)
deriving Repr, DecidableEq

/-- Modelled from the spec: `StreamManager.Get` — the stream registered
under `name`, or not-found (`none`). -/
def StreamManager.get (m : StreamManager) (name : String) : Option Stream :=
  (m.streams.find? (fun p => p.fst == name)).map Prod.snd

/-- Register a stream under a name not yet present. -/
def StreamManager.add (m : StreamManager) (name : String) (st : Stream) : StreamManager :=
  ⟨(name, st) :: m.streams⟩

/-- Replace the stream registered under `name`. -/
def StreamManager.update (m : StreamManager) (name : String) (st : Stream) : StreamManager :=
  ⟨m.streams.map (fun p => if p.fst = name then (name, st) else p)⟩

/-- Modelled from the spec: `StreamManager.Remove` — drop the registry
entry for `name`; a later `get` returns not-found, never an empty
sentinel. -/
def StreamManager.remove (m : StreamManager) (name : String) : StreamManager :=
  ⟨m.streams.filter (fun p => p.fst != name)⟩

/-! ### Server -/

/-- Modelled from the spec: the missing `Server` — the stream manager plus
the configuration switches `eventTTL`, `autoStream` and `autoReplay`. -/
structure Server where
  streamMgr : StreamManager
  eventTTL : Nat
  autoStream : Bool
  autoReplay : Bool
deriving Repr, DecidableEq

/-- Modelled from the spec: `NewServer` defaults — empty registry, unset
TTL, auto-stream off, auto-replay on. -/
def NewServer : Server :=
  { streamMgr := ⟨[]⟩, eventTTL := 0, autoStream := false, autoReplay := true }

/-- Modelled from the spec: `Server.CreateStream` — idempotent creation. -/
def Server.createStream (srv : Server) (name : String) : Server :=
  match srv.streamMgr.get name with
  | some _ => srv
  | none => { srv with streamMgr := srv.streamMgr.add name (newStream name) }

/-- Modelled from the spec: `Server.Publish(topic, event)` — look up the
stream (auto-creating when `autoStream` is on), publish into it; fails
silently when the stream does not exist and auto-stream is off. -/
def Server.publish (srv : Server) (now : Nat) (topic : String) (ev : PubEvent) : Server :=
  match srv.streamMgr.get topic with
  | some st =>
      { srv with streamMgr := srv.streamMgr.update topic (st.publish srv.eventTTL now ev) }
  | none =>
      if srv.autoStream then
        { srv with
          streamMgr := srv.streamMgr.add topic ((newStream topic).publish srv.eventTTL now ev) }
      else srv

/-- Modelled from the spec: the subscribe path of the streaming request
handler — resolve the topic (auto-creating when `autoStream` is on, else a
not-found failure), extract the resume id, and register a subscriber via
`Stream.subscribe`. -/
def Server.handleSubscribe (srv : Server) (now : Nat) (topic lastID : String) :
    Option (Server × Subscriber) :=
  match srv.streamMgr.get topic with
  | some st =>
      let p := st.subscribe srv.eventTTL now srv.autoReplay lastID
      some ({ srv with streamMgr := srv.streamMgr.update topic p.1 }, p.2)
  | none =>
      if srv.autoStream then
        let p := (newStream topic).subscribe srv.eventTTL now srv.autoReplay lastID
        some ({ srv with streamMgr := srv.streamMgr.add topic p.1 }, p.2)
      else none

/-- Modelled from the spec: handler teardown — deregister the subscriber
from its stream; under auto-stream mode a stream left with no subscribers
is removed from the registry (the test pins `streamMgr.Get` to nil after
the last unsubscribe); a handle whose stream is already gone is a
no-op. -/
def Server.handleUnsubscribe (srv : Server) (topic : String) (h : Nat) : Server :=
  match srv.streamMgr.get topic with
  | none => srv
  | some st =>
      let st' := st.unsubscribe h
      if srv.autoStream = true ∧ st'.subscribers = [] then
        { srv with streamMgr := srv.streamMgr.remove topic }
      else { srv with streamMgr := srv.streamMgr.update topic st' }

/-! ### Wire-side actions of the request handler -/

/-- Observable actions of the streaming request handler, in order. -/
inductive Action where
  | register
  | writeHeaders
  | flush
  | writeEvent (e : Event)
deriving Repr, DecidableEq

/-- Modelled from the spec: the action trace of one streaming request —
register the subscriber, write the response headers and flush them
immediately (even when zero events are available), then write each
replayed event, flushing after each one. -/
def serveTrace (replay : List Event) : List Action :=
  Action.register :: Action.writeHeaders :: Action.flush ::
    replay.flatMap (fun e => [Action.writeEvent e, Action.flush])

/-- Modelled from the spec: the full streaming request — resolve and
subscribe, then emit the handler's action trace for the replayed queue. -/
def Server.handleRequest (srv : Server) (now : Nat) (topic lastID : String) :
    Option (Server × List Action) :=
  (srv.handleSubscribe now topic lastID).map (fun p => (p.1, serveTrace p.2.queue))

/-! ### Streaming client -/

/-- Modelled from the spec: the missing client dispatch loop — for every
parsed event whose `data` is non-empty, invoke the callback (collected
here as the delivered list) and then update the stored last-event-id to
this event's id; events with empty data are skipped. Returns the final
last-event-id and the delivered events in order. -/
def processEvents (lastID : String) : List Event → String × List Event
  | [] => (lastID, [])
  | e :: rest =>
      if e.data = [] then processEvents lastID rest
      else
        let p := processEvents e.id rest
        (p.1, e :: p.2)

/-- The event a fresh stream's `i`-th auto-assigned publish produces:
id is the decimal string of `i + 1`, payload the `i`-th data item. -/
def evOf (now : Nat) (datas : List (List Nat)) (i : Nat) : Event :=
  { id := decRepr (i + 1), data := datas.getD i [], receivedAt := now }

/-- Concrete stream used as a witness input: one buffered event (id "1"),
one subscriber (handle 0), counter 1, next handle 1. -/
def c3St : Stream := ⟨"s", 1, [⟨"1", [5], 0⟩], [⟨0, []⟩], 1⟩

/-! ### Helper lemmas -/

theorem expired_zero (now r : Nat) : expired 0 now r = false := by
  simp [expired]

theorem expired_now (ttl t : Nat) : expired ttl t t = false := by
  simp [expired]

theorem logAppend_zero (now : Nat) (e : Event) (buf : List Event) :
    logAppend 0 now e buf = buf ++ [e] := by
  simp [logAppend, expired_zero]

theorem snapshot_zero_all (now : Nat) (buf : List Event) :
    snapshot 0 now "" buf = buf := by
  simp [snapshot, expired_zero]

theorem publish_auto (ttl now : Nat) (d : List Nat) (s : Stream) :
    s.publish ttl now { data := d }
      = { s with
          eventIndex := s.eventIndex + 1
          buffer := logAppend ttl now
            { id := decRepr (s.eventIndex + 1), data := d, receivedAt := now } s.buffer
          subscribers := s.subscribers.map (fun sub =>
            { sub with queue := sub.queue ++
                [{ id := decRepr (s.eventIndex + 1), data := d, receivedAt := now }] }) } := by
  simp [Stream.publish]

theorem publishAll_buffer (now : Nat) (datas : List (List Nat)) : ∀ s : Stream,
    (publishAll 0 now datas s).buffer
      = s.buffer ++ (List.range datas.length).map (fun i =>
          { id := decRepr (s.eventIndex + i + 1), data := datas.getD i [],
            receivedAt := now }) := by
  induction datas with
  | nil => intro s; simp [publishAll]
  | cons d rest ih =>
    intro s
    have step : publishAll 0 now (d :: rest) s
        = publishAll 0 now rest (s.publish 0 now { data := d }) := rfl
    rw [step, ih, publish_auto, logAppend_zero]
    simp only [List.length_cons, List.range_succ_eq_map, List.map_cons, List.map_map]
    simp only [List.getD_cons_zero, List.append_assoc, List.cons_append, List.nil_append]
    congr 1
    congr 1
    apply List.map_congr_left
    intro i _
    simp [Function.comp, evOf, Nat.add_assoc, Nat.add_comm 1 i]

theorem publishAll_eventIndex (now : Nat) (datas : List (List Nat)) : ∀ s : Stream,
    (publishAll 0 now datas s).eventIndex = s.eventIndex + datas.length := by
  induction datas with
  | nil => intro s; simp [publishAll]
  | cons d rest ih =>
    intro s
    have step : publishAll 0 now (d :: rest) s
        = publishAll 0 now rest (s.publish 0 now { data := d }) := rfl
    rw [step, ih, publish_auto]
    simp [Nat.add_assoc, Nat.add_comm 1 rest.length]

theorem publishAll_nextHandle (ttl now : Nat) (datas : List (List Nat)) : ∀ s : Stream,
    (publishAll ttl now datas s).nextHandle = s.nextHandle := by
  induction datas with
  | nil => intro s; simp [publishAll]
  | cons d rest ih =>
    intro s
    have step : publishAll ttl now (d :: rest) s
        = publishAll ttl now rest (s.publish ttl now { data := d }) := rfl
    rw [step, ih]
    simp [Stream.publish]

theorem publishAll_subscribers_nil (ttl now : Nat) (datas : List (List Nat)) :
    ∀ s : Stream, s.subscribers = [] → (publishAll ttl now datas s).subscribers = [] := by
  induction datas with
  | nil => intro s h; simpa [publishAll] using h
  | cons d rest ih =>
    intro s h
    have step : publishAll ttl now (d :: rest) s
        = publishAll ttl now rest (s.publish ttl now { data := d }) := rfl
    rw [step]
    exact ih _ (by simp [Stream.publish, h])

theorem publishAll_newStream_buffer (nm : String) (now : Nat) (datas : List (List Nat)) :
    (publishAll 0 now datas (newStream nm)).buffer
      = (List.range datas.length).map (evOf now datas) := by
  rw [publishAll_buffer]
  simp [newStream, evOf]

theorem range_filter_le (k : Nat) : ∀ n : Nat,
    (List.range n).filter (fun i => decide (k ≤ i)) = List.range' k (n - k) := by
  intro n
  induction n with
  | zero => simp
  | succ n ih =>
    rw [List.range_succ, List.filter_append, ih]
    by_cases h : k ≤ n
    · have h1 : n + 1 - k = (n - k) + 1 := by omega
      rw [h1, List.range'_concat]
      have h2 : k + 1 * (n - k) = n := by omega
      rw [h2]
      simp [h]
    · have h1 : n + 1 - k = 0 := by omega
      have h2 : n - k = 0 := by omega
      rw [h1, h2]
      simp [List.range']
      omega

theorem snapshot_resume (now tpub k : Nat) (datas : List (List Nat)) :
    snapshot 0 now (decRepr k) ((List.range datas.length).map (evOf tpub datas))
      = (List.range' k (datas.length - k)).map (evOf tpub datas) := by
  rw [snapshot]
  simp only [expired_zero, Bool.not_false, List.filter_true]
  rw [if_neg (decRepr_ne_empty k)]
  rw [List.filter_map]
  simp only [Function.comp_def]
  have hcong : ∀ i ∈ List.range datas.length,
      (fun e => decide (idNum (decRepr k) < idNum e.id)) (evOf tpub datas i)
        = decide (k ≤ i) := by
    intro i _
    simp [evOf, idNum_decRepr, Nat.lt_succ_iff]
  rw [List.filter_congr hcong, range_filter_le]

theorem range_map_getD {α : Type} (d : α) : ∀ l : List α,
    (List.range l.length).map (fun i => l.getD i d) = l := by
  intro l
  induction l with
  | nil => simp
  | cons a t ih =>
    rw [List.length_cons, List.range_succ_eq_map, List.map_cons, List.map_map]
    simp only [List.getD_cons_zero]
    have h : ∀ i ∈ List.range t.length,
        ((fun i => (a :: t).getD i d) ∘ (· + 1)) i = t.getD i d := by
      intro i _
      simp
    rw [List.map_congr_left h, ih]

theorem subscribe_stream_fields (ttl now : Nat) (ar : Bool) (lastID : String) (s : Stream) :
    ((s.subscribe ttl now ar lastID).1).subscribers
        = s.subscribers ++ [(s.subscribe ttl now ar lastID).2]
    ∧ ((s.subscribe ttl now ar lastID).1).eventIndex = s.eventIndex
    ∧ ((s.subscribe ttl now ar lastID).2).handle = s.nextHandle := by
  simp [Stream.subscribe]

/-! ### Claim theorems -/

/-- Claim C1: with retained events auto-assigned ids `1..N` published in
order, a subscriber attaching with resumption id `k` receives from replay
exactly the events `k+1..N`, in order (`List.range' k (N - k)` enumerates
indices `k..N-1`, whose events carry ids `k+1..N`), and a subsequently
published live event is then appended to its queue. -/
theorem claim_c1_resume_replay (nm : String) (datas : List (List Nat))
    (k tpub tsub tlive : Nat) (d' : List Nat) :
    (((publishAll 0 tpub datas (newStream nm)).subscribe 0 tsub true (decRepr k)).2).queue
      = (List.range' k (datas.length - k)).map (evOf tpub datas)
    ∧ ((((publishAll 0 tpub datas (newStream nm)).subscribe 0 tsub true
            (decRepr k)).1).publish 0 tlive { data := d' }).subQueue
        (((publishAll 0 tpub datas (newStream nm)).subscribe 0 tsub true (decRepr k)).2).handle
      = some ((List.range' k (datas.length - k)).map (evOf tpub datas)
          ++ [{ id := decRepr (datas.length + 1), data := d', receivedAt := tlive }]) := by
  have hbuf := publishAll_newStream_buffer nm tpub datas
  have hsubs := publishAll_subscribers_nil 0 tpub datas (newStream nm) rfl
  have hidx : (publishAll 0 tpub datas (newStream nm)).eventIndex = datas.length := by
    rw [publishAll_eventIndex]
    simp [newStream]
  constructor
  · simp [Stream.subscribe, hbuf, snapshot_resume]
  · simp [Stream.subscribe, Stream.publish, Stream.subQueue, hbuf, hsubs, hidx,
      snapshot_resume]

/-- Claim C2: a subscriber attaching with no (empty) resumption identifier
receives the full retained replay buffer in publish order — all events
published before it attached — and a subsequently published live event is
then appended after the replayed ones. -/
theorem claim_c2_full_replay (nm : String) (datas : List (List Nat))
    (tpub tsub tlive : Nat) (d' : List Nat) :
    (((publishAll 0 tpub datas (newStream nm)).subscribe 0 tsub true "").2).queue
      = (List.range datas.length).map (evOf tpub datas)
    ∧ ((((publishAll 0 tpub datas (newStream nm)).subscribe 0 tsub true "").1).publish
          0 tlive { data := d' }).subQueue
        (((publishAll 0 tpub datas (newStream nm)).subscribe 0 tsub true "").2).handle
      = some ((List.range datas.length).map (evOf tpub datas)
          ++ [{ id := decRepr (datas.length + 1), data := d', receivedAt := tlive }]) := by
  have hbuf := publishAll_newStream_buffer nm tpub datas
  have hsubs := publishAll_subscribers_nil 0 tpub datas (newStream nm) rfl
  have hidx : (publishAll 0 tpub datas (newStream nm)).eventIndex = datas.length := by
    rw [publishAll_eventIndex]
    simp [newStream]
  constructor
  · simp [Stream.subscribe, hbuf, snapshot_zero_all]
  · simp [Stream.subscribe, Stream.publish, Stream.subQueue, hbuf, hsubs, hidx,
      snapshot_zero_all]

/-- Claim C6: publishing a sequence of events carrying no producer ids
auto-assigns as ids the decimal strings of the per-stream counter values
`1..N`, so ids are (numerically) non-decreasing in publish order and the
buffer exposes the payloads in publish order. -/
theorem claim_c6_auto_ids (nm : String) (datas : List (List Nat)) (tpub : Nat) :
    ((publishAll 0 tpub datas (newStream nm)).buffer).map Event.id
        = (List.range datas.length).map (fun i => decRepr (i + 1))
    ∧ ((publishAll 0 tpub datas (newStream nm)).buffer).map Event.data = datas
    ∧ List.Chain' (fun a b => idNum a.id ≤ idNum b.id)
        (publishAll 0 tpub datas (newStream nm)).buffer := by
  have hbuf := publishAll_newStream_buffer nm tpub datas
  refine ⟨?_, ?_, ?_⟩
  · rw [hbuf, List.map_map]
    apply List.map_congr_left
    intro i _
    simp [evOf, Function.comp]
  · rw [hbuf, List.map_map]
    have h : ∀ i ∈ List.range datas.length,
        (Event.data ∘ evOf tpub datas) i = datas.getD i [] := by
      intro i _
      simp [evOf, Function.comp]
    rw [List.map_congr_left h]
    exact range_map_getD [] datas
  · rw [hbuf, List.chain'_map]
    apply List.Pairwise.chain'
    apply (List.pairwise_lt_range datas.length).imp
    intro i j hij
    simp [evOf, idNum_decRepr]
    omega

/-- Claim C4: with a finite non-zero `eventTTL`, an event whose age since
its `receivedAt` timestamp exceeds the TTL is excluded from the replay
handed to a newly attaching subscriber with no resumption id; in the
scenario — publish two events at `t1`, a third at `t2` with
`t2 - t1 > ttl` — a subscriber attaching at `t2` receives only the third
event. -/
theorem claim_c4_ttl_eviction (ttl : Nat) (h0 : ttl ≠ 0) :
    (∀ (st : Stream) (now : Nat) (e : Event), ttl < now - e.receivedAt →
      e ∉ ((st.subscribe ttl now true "").2).queue)
    ∧ (∀ (nm : String) (d1 d2 d3 : List Nat) (t1 t2 : Nat), ttl < t2 - t1 →
      (((((newStream nm).publish ttl t1 { data := d1 }).publish ttl t1
            { data := d2 }).publish ttl t2 { data := d3 }).subscribe ttl t2 true "").2.queue
        = [{ id := decRepr 3, data := d3, receivedAt := t2 }]) := by
  constructor
  · intro st now e hage hmem
    rw [show ((st.subscribe ttl now true "").2).queue = snapshot ttl now "" st.buffer
      from rfl] at hmem
    simp [snapshot, List.mem_filter, expired, h0] at hmem
    omega
  · intro nm d1 d2 d3 t1 t2 hage
    have hexp : expired ttl t2 t1 = true := by
      simp [expired, h0, hage]
    simp [Stream.publish, Stream.subscribe, newStream, logAppend, snapshot,
      expired_now, hexp, h0]

/-- Claim C5: the streaming client's dispatch loop invokes the consumer
callback only for events whose data is non-empty; an event with empty data
is never among the delivered events. -/
theorem claim_c5_nonempty_data (lastID : String) (evs : List Event) (e : Event)
    (h : e ∈ (processEvents lastID evs).2) : e.data ≠ [] := by
  induction evs generalizing lastID with
  | nil => simp [processEvents] at h
  | cons a rest ih =>
    rw [processEvents] at h
    by_cases hd : a.data = []
    · rw [if_pos hd] at h
      exact ih _ h
    · rw [if_neg hd] at h
      simp only [List.mem_cons] at h
      rcases h with h | h
      · rw [h]
        exact hd
      · exact ih _ h

theorem get_add (m : StreamManager) (name : String) (st : Stream) :
    (m.add name st).get name = some st := by
  simp [StreamManager.get, StreamManager.add, List.find?]

theorem get_remove (m : StreamManager) (name : String) :
    (m.remove name).get name = none := by
  rw [StreamManager.get, Option.map_eq_none']
  rw [List.find?_eq_none]
  intro x hx
  have hne := (List.mem_filter.mp hx).2
  simp only [bne_iff_ne, ne_eq] at hne
  simp [hne]

/-- Claim C7: with `autoStream` on, subscribing to a stream name not yet
present creates the stream and the subscription succeeds; and with
`autoReplay` off a subscriber's replay is empty — its queue then holds
exactly the events published after it attached. -/
theorem claim_c7_autostream_autoreplay (srv : Server) (topic lastID : String) (now : Nat)
    (hA : srv.autoStream = true) (hN : srv.streamMgr.get topic = none) :
    (∃ srv' sub, srv.handleSubscribe now topic lastID = some (srv', sub)
      ∧ (srv'.streamMgr.get topic).isSome = true)
    ∧ (∀ (st : Stream) (ttl now2 : Nat) (lastID2 : String),
        ((st.subscribe ttl now2 false lastID2).2).queue = [])
    ∧ (∀ (st : Stream) (ttl now2 tlive : Nat) (lastID2 : String) (d : List Nat),
        st.subscribers = [] →
        (((st.subscribe ttl now2 false lastID2).1).publish ttl tlive
            { data := d }).subQueue ((st.subscribe ttl now2 false lastID2).2).handle
          = some [{ id := decRepr (st.eventIndex + 1), data := d, receivedAt := tlive }]) := by
  refine ⟨?_, ?_, ?_⟩
  · rw [Server.handleSubscribe, hN]
    rw [if_pos hA]
    exact ⟨_, _, rfl, by rw [get_add]; rfl⟩
  · intro st ttl now2 lastID2
    simp [Stream.subscribe]
  · intro st ttl now2 tlive lastID2 d hs
    simp [Stream.subscribe, Stream.publish, Stream.subQueue, hs]

/-- Claim C8: unsubscribe is idempotent — unsubscribing the same handle a
second time changes nothing, unsubscribing a handle of an already-removed
stream returns the server unchanged, and subscribers with other handles
stay registered. -/
theorem claim_c8_unsubscribe_idempotent (s : Stream) (h : Nat) (srv : Server)
    (topic : String) (sub : Subscriber)
    (hN : srv.streamMgr.get topic = none)
    (hm : sub ∈ s.subscribers) (hh : sub.handle ≠ h) :
    (s.unsubscribe h).unsubscribe h = s.unsubscribe h
    ∧ srv.handleUnsubscribe topic h = srv
    ∧ sub ∈ (s.unsubscribe h).subscribers := by
  refine ⟨?_, ?_, ?_⟩
  · simp [Stream.unsubscribe, List.filter_filter]
  · rw [Server.handleUnsubscribe, hN]
  · simp [Stream.unsubscribe, List.mem_filter, hm, hh]

/-- Claim C9: the action trace of a streaming request starts by
registering the subscriber, then writing and flushing the response
headers — before any event is written, and present even when the replay
set is empty. -/
theorem claim_c9_header_flush (srv : Server) (now : Nat) (topic lastID : String)
    (srv' : Server) (tr : List Action)
    (hreq : srv.handleRequest now topic lastID = some (srv', tr)) :
    tr.take 3 = [Action.register, Action.writeHeaders, Action.flush] := by
  rw [Server.handleRequest] at hreq
  rcases Option.map_eq_some'.mp hreq with ⟨p, _, hp⟩
  have htr : tr = serveTrace p.2.queue := (congrArg Prod.snd hp).symm
  rw [htr, serveTrace]
  rfl

/-- Claim C10: a stream auto-created by a subscription is removed from the
registry when its last subscriber unsubscribes: the subsequent lookup
returns not-found rather than an empty stream. -/
theorem claim_c10_autostream_removal (srv : Server) (topic lastID : String) (now : Nat)
    (srv' : Server) (sub : Subscriber)
    (hA : srv.autoStream = true)
    (hN : srv.streamMgr.get topic = none)
    (hS : srv.handleSubscribe now topic lastID = some (srv', sub)) :
    (srv'.handleUnsubscribe topic sub.handle).streamMgr.get topic = none := by
  simp only [Server.handleSubscribe, hN, hA, if_true] at hS
  have hS' := Option.some.inj hS
  have hsrv := congrArg Prod.fst hS'
  have hsub := congrArg Prod.snd hS'
  dsimp only at hsrv hsub
  rw [← hsrv, ← hsub]
  simp [Server.handleUnsubscribe, get_add, hA, Stream.subscribe, Stream.unsubscribe,
    newStream, get_remove]

/-- Witness for C4: `eventTTL` 1, two events at time 0, a third at time 2,
subscriber at time 2 gets only the third event, with id "3". -/
theorem claim_c4_witness :
    (((((newStream "test").publish 1 0 { data := [1] }).publish 1 0
          { data := [2] }).publish 1 2 { data := [3] }).subscribe 1 2 true "").2.queue
      = [{ id := decRepr 3, data := [3], receivedAt := 2 }] :=
  (claim_c4_ttl_eviction 1 (by decide)).2 "test" [1] [2] [3] 0 2 (by decide)

/-- Witness for C5: the second of two incoming events (the first carrying
empty data) is delivered, and its data is non-empty. -/
theorem claim_c5_witness :
    ({ id := "2", data := [7], receivedAt := 0 } : Event).data ≠ [] :=
  claim_c5_nonempty_data "" [{ id := "1", data := [], receivedAt := 0 },
    { id := "2", data := [7], receivedAt := 0 }] _ (by decide)

/-- Witness for C7: subscribing to the unknown stream "test" of an
auto-stream server with an empty registry succeeds. -/
theorem claim_c7_witness :
    ((⟨⟨[]⟩, 0, true, false⟩ : Server).handleSubscribe 0 "test" "").isSome = true := by
  have h := claim_c7_autostream_autoreplay ⟨⟨[]⟩, 0, true, false⟩ "test" "" 0 rfl rfl
  rcases h.1 with ⟨srv', sub, heq, _⟩
  rw [heq]
  rfl

/-- Witness for C8: double unsubscribe of handle 0, unsubscribe against an
empty registry, and preservation of the subscriber with handle 1. -/
theorem claim_c8_witness :
    ((⟨"s", 0, [], [⟨0, []⟩, ⟨1, []⟩], 2⟩ : Stream).unsubscribe 0).unsubscribe 0
        = (⟨"s", 0, [], [⟨0, []⟩, ⟨1, []⟩], 2⟩ : Stream).unsubscribe 0
    ∧ (⟨⟨[]⟩, 0, false, true⟩ : Server).handleUnsubscribe "t" 0
        = (⟨⟨[]⟩, 0, false, true⟩ : Server)
    ∧ (⟨1, []⟩ : Subscriber)
        ∈ ((⟨"s", 0, [], [⟨0, []⟩, ⟨1, []⟩], 2⟩ : Stream).unsubscribe 0).subscribers :=
  claim_c8_unsubscribe_idempotent ⟨"s", 0, [], [⟨0, []⟩, ⟨1, []⟩], 2⟩ 0
    ⟨⟨[]⟩, 0, false, true⟩ "t" ⟨1, []⟩ rfl (by decide) (by decide)

/-- Witness for C9: a request against a stream with an empty buffer — zero
events — still yields a trace starting with register, headers, flush. -/
theorem claim_c9_witness :
    ([Action.register, Action.writeHeaders, Action.flush] : List Action).take 3
      = [Action.register, Action.writeHeaders, Action.flush] :=
  claim_c9_header_flush ⟨⟨[("test", newStream "test")]⟩, 0, false, true⟩ 0 "test" ""
    ⟨⟨[("test", ⟨"test", 0, [], [⟨0, []⟩], 1⟩)]⟩, 0, false, true⟩
    [Action.register, Action.writeHeaders, Action.flush] (by decide)

/-- Witness for C10: after the auto-created stream "test" loses its only
subscriber (handle 0), the registry lookup returns not-found. -/
theorem claim_c10_witness :
    ((⟨⟨[("test", ⟨"test", 0, [], [⟨0, []⟩], 1⟩)]⟩, 0, true, true⟩ : Server).handleUnsubscribe
        "test" 0).streamMgr.get "test" = none :=
  claim_c10_autostream_removal ⟨⟨[]⟩, 0, true, true⟩ "test" "" 0
    ⟨⟨[("test", ⟨"test", 0, [], [⟨0, []⟩], 1⟩)]⟩, 0, true, true⟩ ⟨0, []⟩ rfl rfl (by decide)

theorem find?_none_append {α : Type} (p : α → Bool) : ∀ (l1 l2 : List α),
    (∀ x ∈ l1, p x = false) → List.find? p (l1 ++ l2) = List.find? p l2 := by
  intro l1
  induction l1 with
  | nil => intro l2 _; rfl
  | cons a t ih =>
    intro l2 hall
    rw [List.cons_append, List.find?_cons_of_neg _ (by simp [hall a (by simp)])]
    exact ih l2 (fun x hx => hall x (by simp [hx]))

theorem snapshot_mem_subset (ttl now : Nat) (sid : String) (buf : List Event) (e : Event)
    (h : e ∈ snapshot ttl now sid buf) : e ∈ buf := by
  by_cases hs : sid = ""
  · simp only [snapshot] at h
    rw [if_pos hs] at h
    exact (List.mem_filter.mp h).1
  · simp only [snapshot] at h
    rw [if_neg hs] at h
    exact (List.mem_filter.mp (List.mem_filter.mp h).1).1

theorem filter_append_singleton (g : Event → Bool) (l : List Event) (e : Event)
    (h : g e = true) : (l ++ [e]).filter g = l.filter g ++ [e] := by
  simp [List.filter_append, h]

theorem snapshot_append_fresh (ttl ts : Nat) (sid : String) (l : List Event) (e : Event)
    (hg2 : expired ttl ts e.receivedAt = false)
    (hid : sid = "" ∨ idNum sid < idNum e.id) :
    snapshot ttl ts sid (l ++ [e]) = snapshot ttl ts sid l ++ [e] := by
  by_cases hs : sid = ""
  · simp [snapshot, hs, List.filter_append, hg2]
  · have h := hid.resolve_left hs
    simp [snapshot, hs, List.filter_append, hg2, h]

theorem count_snapshot_zero (ttl ts : Nat) (sid : String) (l : List Event) (e : Event)
    (hnotin : e ∉ l) : (snapshot ttl ts sid l).count e = 0 :=
  List.count_eq_zero.mpr (fun h => hnotin (snapshot_mem_subset _ _ _ _ _ h))

/-- Claim C3: with `Subscribe` performing registration and buffer-read in
one critical section and `Publish` atomic, an interleaving of a subscribe
with a concurrent publish is one of the two orders below, and in each the
subscriber receives the published event exactly once — in the
publish-first order it is in the replay queue exactly once and nothing is
appended live; in the subscribe-first order it is absent from the replay
and delivered exactly once by the live broadcast. -/
theorem claim_c3_publish_subscribe_interleaving
    (st : Stream) (d : List Nat) (lastID : String) (ttl tp ts : Nat)
    (hfresh : ∀ e ∈ st.buffer, e.id ≠ decRepr (st.eventIndex + 1))
    (hhandles : ∀ s0 ∈ st.subscribers, s0.handle ≠ st.nextHandle)
    (hexp : expired ttl ts tp = false)
    (hid : lastID = "" ∨ idNum lastID ≤ st.eventIndex) :
    (((st.publish ttl tp { data := d }).subscribe ttl ts true lastID).2.queue.count
        { id := decRepr (st.eventIndex + 1), data := d, receivedAt := tp } = 1
      ∧ ((st.publish ttl tp { data := d }).subscribe ttl ts true lastID).1.subQueue
          ((st.publish ttl tp { data := d }).subscribe ttl ts true lastID).2.handle
        = some ((st.publish ttl tp { data := d }).subscribe ttl ts true lastID).2.queue)
    ∧ ((st.subscribe ttl ts true lastID).2.queue.count
        { id := decRepr (st.eventIndex + 1), data := d, receivedAt := tp } = 0
      ∧ (((st.subscribe ttl ts true lastID).1).publish ttl tp { data := d }).subQueue
          ((st.subscribe ttl ts true lastID).2).handle
        = some ((st.subscribe ttl ts true lastID).2.queue
            ++ [{ id := decRepr (st.eventIndex + 1), data := d, receivedAt := tp }])) := by
  have hnotin : ({ id := decRepr (st.eventIndex + 1), data := d, receivedAt := tp } : Event)
      ∉ st.buffer := fun hmem => hfresh _ hmem rfl
  have hid' : lastID = ""
      ∨ idNum lastID
        < idNum ({ id := decRepr (st.eventIndex + 1), data := d, receivedAt := tp } : Event).id := by
    rcases hid with h | h
    · exact Or.inl h
    · right
      simpa [idNum_decRepr] using Nat.lt_succ_of_le h
  refine ⟨⟨?_, ?_⟩, ?_, ?_⟩
  · rw [publish_auto]
    simp only [Stream.subscribe, if_true]
    rw [logAppend, filter_append_singleton _ _ _ (by simp [expired_now])]
    rw [snapshot_append_fresh _ _ _ _ _ (by simpa using hexp) hid']
    rw [List.count_append,
      count_snapshot_zero _ _ _ _ _ (fun h => hnotin (List.mem_filter.mp h).1)]
    simp
  · rw [publish_auto]
    simp only [Stream.subscribe, Stream.subQueue, if_true]
    rw [find?_none_append _ _ _ ?hall]
    case hall =>
      intro x hx
      rcases List.mem_map.mp hx with ⟨y, hy, rfl⟩
      simpa using hhandles y hy
    simp
  · rw [List.count_eq_zero]
    intro hmem
    have hb : ({ id := decRepr (st.eventIndex + 1), data := d, receivedAt := tp } : Event)
        ∈ st.buffer :=
      snapshot_mem_subset _ _ _ _ _ (by simpa [Stream.subscribe] using hmem)
    exact hfresh _ hb rfl
  · rw [publish_auto]
    simp only [Stream.subscribe, Stream.subQueue]
    rw [List.map_append]
    rw [find?_none_append _ _ _ ?hall2]
    case hall2 =>
      intro x hx
      rcases List.mem_map.mp hx with ⟨y, hy, rfl⟩
      simpa using hhandles y hy
    simp

/-- Witness for C3: on `c3St` the concurrently published event gets id "2"
and is received exactly once in both interleaving orders. -/
theorem claim_c3_witness :
    (((c3St.publish 0 0 { data := [9] }).subscribe 0 0 true "").2.queue.count
        { id := decRepr 2, data := [9], receivedAt := 0 } = 1
      ∧ ((c3St.publish 0 0 { data := [9] }).subscribe 0 0 true "").1.subQueue
          ((c3St.publish 0 0 { data := [9] }).subscribe 0 0 true "").2.handle
        = some ((c3St.publish 0 0 { data := [9] }).subscribe 0 0 true "").2.queue)
    ∧ ((c3St.subscribe 0 0 true "").2.queue.count
        { id := decRepr 2, data := [9], receivedAt := 0 } = 0
      ∧ (((c3St.subscribe 0 0 true "").1).publish 0 0 { data := [9] }).subQueue
          ((c3St.subscribe 0 0 true "").2).handle
        = some ((c3St.subscribe 0 0 true "").2.queue
            ++ [{ id := decRepr 2, data := [9], receivedAt := 0 }])) :=
  claim_c3_publish_subscribe_interleaving c3St [9] "" 0 0 0
    (by decide) (by decide) (by decide) (Or.inl rfl)

/-! ### Scratch sanity checks -/

example :
    (((publishAll 0 5 [[1], [2], [3]] (newStream "test")).subscribe 0 6 true "2").2).queue
      = [{ id := "3", data := [3], receivedAt := 5 }] := by decide

example :
    (((publishAll 0 5 [[1], [2], [3]] (newStream "test")).subscribe 0 6 true "").2).queue
      = [{ id := "1", data := [1], receivedAt := 5 },
         { id := "2", data := [2], receivedAt := 5 },
         { id := "3", data := [3], receivedAt := 5 }] := by decide

end sse
